import Mathlib

/-!
A shallow embedding of the Ray Serve client API (`python/ray/serve/api.py`)
and the controller operations it drives, together with proofs about the
administrative control-plane behaviour.

Python values are modelled as follows: floats are rationals (`ℚ`), dicts are
association lists with insertion-order semantics (`dictSet` overwrites in
place, appends new keys at the end, exactly like CPython dicts), exceptions
are an explicit `Err` type threaded through `Except`, and the module-global
`controller` actor handle together with the set of named detached actors is
carried in an explicit `World` state.  Controller-side operations that live
outside the embedded file are modelled from the specification and say so in
their doc comments.
-/

namespace RayServe

/-- The exception types raised by the embedded code.  Constructors are named
after the Python exception classes actually raised at each site
(`TypeError`, `ValueError`, `ray.serve.exceptions.RayServeException`,
`AssertionError`, `IndexError`); `validationError` and `notFoundError` are
used by the spec-modelled controller operations, following the spec's error
taxonomy. -/
inductive Err where
  | typeError (msg : String)
  | valueError (msg : String)
  | rayServeException (msg : String)
  | validationError (msg : String)
  | notFoundError (msg : String)
  | assertionError
  | indexError
deriving DecidableEq

/-- A traffic policy: primary weights and independent shadow proportions,
both keyed by backend tag (floats as `ℚ`). -/
structure TrafficPolicy where
  weights : List (String × ℚ)
  shadow : List (String × ℚ)
deriving DecidableEq

/-- An endpoint record: optional HTTP route, HTTP methods, traffic policy. -/
structure Endpoint where
  route : Option String
  methods : List String
  traffic : TrafficPolicy
deriving DecidableEq

/-- The backend configuration fields named by the spec
(`num_replicas`, optional `max_batch_size`, `batch_wait_timeout` in seconds,
`max_concurrent_queries`). -/
structure BackendConfig where
  num_replicas : Nat
  max_batch_size : Option Nat
  batch_wait_timeout : ℚ
  max_concurrent_queries : Nat
deriving DecidableEq

/-- A partial backend configuration: the `config_options` dict passed to
`update_backend_config`; `none` in a field means the key was not supplied. -/
structure ConfigOptions where
  num_replicas : Option Nat
  max_batch_size : Option (Option Nat)
  batch_wait_timeout : Option ℚ
  max_concurrent_queries : Option Nat
deriving DecidableEq

/-- The in-memory state owned by one controller actor: the endpoint
registry, the backend registry and the router handles it supervises. -/
structure ControllerState where
  endpoints : List (String × Endpoint)
  backends : List (String × BackendConfig)
  routers : List (String × String)
deriving DecidableEq

/-- The world visible to the client module: the named detached controller
actors alive in the ray cluster, the module-global `controller` handle of
`api.py` (an actor name, or `none`), and a log of the external calls made
(controller RPCs, actor creation, HTTP readiness probes). -/
structure World where
  actors : List (String × ControllerState)
  controller : Option String
  log : List String
deriving DecidableEq

/-- Python dict assignment `d[k] = v` on an association list: overwrite the
first binding of `k` in place, or append `(k, v)` if `k` is absent. -/
def dictSet (k : String) (v : β) : List (String × β) → List (String × β)
  | [] => [(k, v)]
  | (k', v') :: rest =>
      if k' == k then (k, v) :: rest else (k', v') :: dictSet k v rest

/-- Python `del d[k]` / removal of a named actor: drop every binding of `k`. -/
def dictRemove (k : String) (l : List (String × β)) : List (String × β) :=
  l.filter (fun p => p.1 ≠ k)

theorem lookup_dictSet_self (k : String) (v : β) (l : List (String × β)) :
    (dictSet k v l).lookup k = some v := by
  induction l with
  | nil => simp [dictSet, List.lookup]
  | cons p rest ih =>
    obtain ⟨k', v'⟩ := p
    by_cases h : k' = k
    · simp [dictSet, h, List.lookup]
    · simp only [dictSet, beq_iff_eq, h, if_false]
      have h2 : (k == k') = false := by
        simp [beq_iff_eq]
        exact fun hk => h hk.symm
      simp [List.lookup, h2, ih]

theorem lookup_dictSet_ne (k k' : String) (v : β) (l : List (String × β))
    (h : k' ≠ k) : (dictSet k v l).lookup k' = l.lookup k' := by
  have e : (k' == k) = false := by simp [beq_iff_eq, h]
  induction l with
  | nil => simp [dictSet, List.lookup, e]
  | cons p rest ih =>
    obtain ⟨k₀, v₀⟩ := p
    by_cases h0 : k₀ = k
    · subst h0
      simp [dictSet, List.lookup, e]
    · simp only [dictSet, beq_iff_eq, h0, if_false]
      by_cases h1 : k' = k₀
      · subst h1
        simp [List.lookup]
      · have e1 : (k' == k₀) = false := by simp [beq_iff_eq, h1]
        simp [List.lookup, e1, ih]

theorem lookup_map_value (f : String → α → β) (l : List (String × α))
    (k : String) :
    (l.map (fun p => (p.1, f p.1 p.2))).lookup k = (l.lookup k).map (f k) := by
  induction l with
  | nil => simp [List.lookup]
  | cons p rest ih =>
    obtain ⟨k₀, v₀⟩ := p
    by_cases h : k = k₀
    · subst h
      simp [List.lookup]
    · have e : (k == k₀) = false := by simp [beq_iff_eq, h]
      simp [List.lookup, e, ih]

/-! ## Controller-side operations

The controller actor (`ray/serve/controller.py`) is not part of the embedded
file; its operations are modelled from the specification, as their doc
comments state. -/

/-- Modelled from the spec: the tolerance ε with which accepted traffic
weights must sum to 1.0 (spec §3, §4.1); the controller source is not in the
embedded file. -/
def trafficEpsilon : ℚ := 1 / 100000000

/-- The sum of the weight values of a traffic dict. -/
def weightsSum (w : List (String × ℚ)) : ℚ := (w.map Prod.snd).sum

/-- One row of the `list_endpoints()` result:
`{route, methods, traffic}` for one endpoint. -/
structure EndpointInfo where
  route : Option String
  methods : List String
  traffic : List (String × ℚ)
deriving DecidableEq

/-- Modelled from the spec: the controller's `get_all_endpoints`, a read-only
snapshot `name → {route, methods, weights}` (spec §4.1 `list()`); the
controller source is not in the embedded file. -/
def ctrl_get_all_endpoints (cs : ControllerState) : List (String × EndpointInfo) :=
  cs.endpoints.map (fun p => (p.1, ⟨p.2.route, p.2.methods, p.2.traffic.weights⟩))

/-- Modelled from the spec: the controller's `create_endpoint`, which
registers the endpoint and in the same atomic step installs the supplied
single-backend traffic dict as its policy (spec §4.1 `create`); the
controller source is not in the embedded file. -/
def ctrl_create_endpoint (cs : ControllerState) (endpoint_name : String)
    (traffic_dict : List (String × ℚ)) (route : Option String)
    (methods : List String) : ControllerState :=
  { cs with
    endpoints := dictSet endpoint_name ⟨route, methods, ⟨traffic_dict, []⟩⟩ cs.endpoints }

/-- Modelled from the spec: the controller's `delete_endpoint`
(spec §4.1 `delete`); the controller source is not in the embedded file. -/
def ctrl_delete_endpoint (cs : ControllerState) (endpoint : String) :
    Except Err ControllerState :=
  if (cs.endpoints.lookup endpoint).isSome then
    .ok { cs with endpoints := dictRemove endpoint cs.endpoints }
  else
    .error (.notFoundError ("endpoint '" ++ endpoint ++ "' is not registered"))

/-- Modelled from the spec: the controller's `set_traffic` validation and
commit (spec §4.1 `set_traffic`): ValidationError if the endpoint is
unknown, a referenced backend is unregistered, or the weights do not sum to
1.0 within `trafficEpsilon`; otherwise atomically replaces `weights`,
leaving `shadow` untouched.  The controller source is not in the embedded
file. -/
def ctrl_set_traffic (cs : ControllerState) (endpoint_name : String)
    (w : List (String × ℚ)) : Except Err ControllerState :=
  match cs.endpoints.lookup endpoint_name with
  | none => .error (.validationError
      ("endpoint '" ++ endpoint_name ++ "' is not registered"))
  | some ep =>
      if w.any (fun p => (cs.backends.lookup p.1).isNone) then
        .error (.validationError "traffic references an unregistered backend")
      else if |weightsSum w - 1| ≤ trafficEpsilon then
        .ok { cs with
          endpoints := dictSet endpoint_name
            { ep with traffic := { ep.traffic with weights := w } } cs.endpoints }
      else
        .error (.validationError "traffic must sum to 1")

/-- Modelled from the spec: the controller's `shadow_traffic`
(spec §4.1 `shadow_traffic`); the controller source is not in the embedded
file. -/
def ctrl_shadow_traffic (cs : ControllerState) (endpoint_name : String)
    (backend_tag : String) (proportion : ℚ) : Except Err ControllerState :=
  match cs.endpoints.lookup endpoint_name with
  | none => .error (.validationError
      ("endpoint '" ++ endpoint_name ++ "' is not registered"))
  | some ep =>
      if (cs.backends.lookup backend_tag).isNone then
        .error (.validationError
          ("backend '" ++ backend_tag ++ "' is not registered"))
      else if (ep.traffic.weights.lookup backend_tag).isSome then
        .error (.valueError
          ("backend '" ++ backend_tag ++ "' already carries primary traffic"))
      else if proportion = 0 then
        .ok { cs with
          endpoints := dictSet endpoint_name
            { ep with traffic :=
                { ep.traffic with
                  shadow := dictRemove backend_tag ep.traffic.shadow } } cs.endpoints }
      else
        .ok { cs with
          endpoints := dictSet endpoint_name
            { ep with traffic :=
                { ep.traffic with
                  shadow := dictSet backend_tag proportion ep.traffic.shadow } } cs.endpoints }

/-- Modelled from the spec: `update_config` "merges only the supplied
fields, leaving others unchanged" (spec §4.2); the controller source is not
in the embedded file. -/
def mergeConfig (c : BackendConfig) (opts : ConfigOptions) : BackendConfig :=
  { num_replicas := opts.num_replicas.getD c.num_replicas
    max_batch_size := opts.max_batch_size.getD c.max_batch_size
    batch_wait_timeout := opts.batch_wait_timeout.getD c.batch_wait_timeout
    max_concurrent_queries := opts.max_concurrent_queries.getD c.max_concurrent_queries }

/-- Modelled from the spec: the controller's `update_backend_config`
(spec §4.2 `update_config`): NotFoundError for an unknown tag, otherwise
merge the supplied fields into the stored config.  The controller source is
not in the embedded file. -/
def ctrl_update_backend_config (cs : ControllerState) (backend_tag : String)
    (opts : ConfigOptions) : Except Err ControllerState :=
  match cs.backends.lookup backend_tag with
  | none => .error (.notFoundError
      ("backend '" ++ backend_tag ++ "' is not registered"))
  | some c => .ok { cs with
      backends := dictSet backend_tag (mergeConfig c opts) cs.backends }

/-- Modelled from the spec: the controller's `get_backend_config`
(spec §4.2 `get`); the controller source is not in the embedded file. -/
def ctrl_get_backend_config (cs : ControllerState) (backend_tag : String) :
    Except Err BackendConfig :=
  match cs.backends.lookup backend_tag with
  | none => .error (.notFoundError
      ("backend '" ++ backend_tag ++ "' is not registered"))
  | some c => .ok c

/-- Modelled from the spec: the controller's `create_backend` commit, which
inserts the validated config under the tag (spec §4.2 `create`); the
controller source is not in the embedded file.  The duplicate-tag check is
performed by the client wrapper before this is reached. -/
def ctrl_create_backend (cs : ControllerState) (backend_tag : String)
    (config : BackendConfig) : ControllerState :=
  { cs with backends := dictSet backend_tag config cs.backends }

/-- Modelled from the spec: the controller's `get_all_backends`
(spec §4.2 `list()`); the controller source is not in the embedded file. -/
def ctrl_get_all_backends (cs : ControllerState) : List (String × BackendConfig) :=
  cs.backends

/-- Whether any endpoint's primary or shadow policy references `tag`. -/
def backendInUse (cs : ControllerState) (tag : String) : Bool :=
  cs.endpoints.any (fun p =>
    (p.2.traffic.weights.lookup tag).isSome ||
    (p.2.traffic.shadow.lookup tag).isSome)

/-- Modelled from the spec: the controller's `delete_backend`
(spec §4.2 `delete`); the controller source is not in the embedded file. -/
def ctrl_delete_backend (cs : ControllerState) (backend_tag : String) :
    Except Err ControllerState :=
  match cs.backends.lookup backend_tag with
  | none => .error (.notFoundError
      ("backend '" ++ backend_tag ++ "' is not registered"))
  | some _ =>
      if backendInUse cs backend_tag then
        .error (.valueError
          ("backend '" ++ backend_tag ++ "' is in use by an endpoint"))
      else
        .ok { cs with backends := dictRemove backend_tag cs.backends }

/-- Modelled from the spec: the controller's `get_routers`, the router
handles it supervises (spec §2); the controller source is not in the
embedded file. -/
def ctrl_get_routers (cs : ControllerState) : List (String × String) :=
  cs.routers

/-! ## Client API layer (`python/ray/serve/api.py`) -/

/-- The constant `SERVE_CONTROLLER_NAME` from `ray/serve/constants.py`
(not in the embedded file; the exact string is irrelevant, only that it is
fixed). -/
def SERVE_CONTROLLER_NAME : String := "SERVE_CONTROLLER_ACTOR"

/-- Modelled from the spec: `format_actor_name` from `ray/serve/utils.py`
(not in the embedded file) builds the detached actor name of the controller
of the serve instance called `instance_name` (spec §4.4: "controller
identity is named"). -/
def format_actor_name (actor_name : String) (instance_name : Option String) : String :=
  match instance_name with
  | none => actor_name
  | some n => n ++ ":" ++ actor_name

/-- The message of the `RayServeException` raised by `_get_controller`. -/
def connectErrMsg : String :=
  "Please run serve.init to initialize or connect to existing ray serve cluster."

/-- The error produced when an RPC is made on a handle whose actor has been
killed (ray raises `RayActorError`; folded into `rayServeException` here). -/
def deadActorMsg : String := "controller actor is dead"

/-- `_get_controller` from `api.py`: returns the module-global controller
handle, or raises `RayServeException` if it is `None`.  The decorator
`_ensure_connected` calls this before each API function body. -/
def _get_controller (w : World) : Except Err String :=
  match w.controller with
  | none => .error (.rayServeException connectErrMsg)
  | some c => .ok c

/-- Modelled from the spec: the state of a freshly started
`ServeController` actor — empty registries, one supervised router per node
(we model a single node, spec §2, §4.4 `Initializing`). -/
def freshController : ControllerState :=
  ⟨[], [], [("node-0", "router:node-0")]⟩

/-- `init` from `api.py`: compute the controller actor name for this
instance name; if a detached actor of that name already exists
(`ray.get_actor` succeeds), just store the handle and return; otherwise
create the detached controller actor and block until the per-node HTTP
proxies answer the readiness probe. -/
def init (w : World) (name : Option String) : Except Err Unit × World :=
  let controller_name := format_actor_name SERVE_CONTROLLER_NAME name
  match w.actors.lookup controller_name with
  | some _ => (.ok (), { w with controller := some controller_name })
  | none =>
      (.ok (), { actors := dictSet controller_name freshController w.actors
                 controller := some controller_name
                 log := w.log ++ ["create_controller_actor", "block_until_http_ready"] })

/-- `shutdown` from `api.py`: requires a connected controller
(`@_ensure_connected`), calls the controller's `shutdown` RPC, kills the
detached actor (`ray.kill`, removing it from the cluster's named actors)
and resets the module-global handle to `None`. -/
def shutdown (w : World) : Except Err Unit × World :=
  match _get_controller w with
  | .error e => (.error e, w)
  | .ok cname =>
      match w.actors.lookup cname with
      | none => (.error (.rayServeException deadActorMsg),
                 { w with log := w.log ++ ["shutdown"] })
      | some _ =>
          (.ok (), { actors := dictRemove cname w.actors
                     controller := none
                     log := w.log ++ ["shutdown", "ray.kill"] })

/-- Shared shape of the `@_ensure_connected` API functions that make a
single controller RPC: check the global handle, log the RPC, fail if the
actor is dead, otherwise run the controller-side operation and commit the
new controller state. -/
def controllerCall (w : World) (method : String)
    (f : ControllerState → Except Err (α × ControllerState)) :
    Except Err α × World :=
  match _get_controller w with
  | .error e => (.error e, w)
  | .ok cname =>
      let w₁ : World := { w with log := w.log ++ [method] }
      match w.actors.lookup cname with
      | none => (.error (.rayServeException deadActorMsg), w₁)
      | some cs =>
          match f cs with
          | .error e => (.error e, w₁)
          | .ok (a, cs') =>
              (.ok a, { w₁ with actors := dictSet cname cs' w₁.actors })

/-- The `backend` keyword argument of `create_endpoint`: Python permits
`None` (the default), a string, or a value of any other type. -/
inductive BackendArg where
  | str (s : String)
  | nonString
deriving DecidableEq

/-- Python's `route.startswith("/")`: the first character of the string is
`/` (stated on the character list so that it evaluates inside the kernel). -/
def startsWithSlash (s : String) : Bool := s.data.head? == some '/'

/-- Python's `method.upper()`: uppercase every character (stated on the
character list so that it evaluates inside the kernel; HTTP method names
are ASCII, where this agrees with `str.upper`). -/
def pyUpper (s : String) : String := ⟨s.data.map Char.toUpper⟩

/-- Message of the `TypeError` for `backend=None` in `create_endpoint`. -/
def backendNoneMsg : String :=
  "backend must be specified when creating an endpoint."

/-- Message of the `TypeError` for a non-string `backend` in
`create_endpoint` (the Python formatting of the offending type is elided). -/
def backendTypeMsg : String := "backend must be a string."

/-- Message of the `TypeError` for a route not starting with `/`. -/
def routeTypeMsg : String := "route must be a string starting with '/'."

/-- Message of the duplicate-endpoint `ValueError` in `create_endpoint`
(the Python `format` of the methods list is elided; route `None` prints as
`None`). -/
def endpointConflictMsg (route : Option String) (endpoint_name : String) : String :=
  "Route '" ++ (match route with | none => "None" | some r => r) ++
    "' is already registered to endpoint '" ++ endpoint_name ++
    "'.  To set the backend for this endpoint, please use serve.set_traffic()."

/-- The conflict-check comparison `methods_old.sort() == methods.sort()`
from `create_endpoint`.  Python's `list.sort()` sorts in place and returns
`None`, so this expression compares `None == None` and is `True` whatever
the two method lists contain. -/
def sortRetEq (_methods_old _methods : List String) : Bool := true

/-- `create_endpoint` from `api.py`.  Argument checks in source order:
`backend` must be a supplied string; a non-`None` `route` must be a string
starting with `/`; then `list_endpoints()` is fetched from the controller
and the duplicate-name conflict check runs (whose methods comparison is
`sortRetEq`, and which sorts `methods` in place as a side effect); finally
the methods are uppercased and the controller registers the endpoint with
the single-backend traffic dict `{backend: 1.0}` in one RPC. -/
def create_endpoint (w : World) (endpoint_name : String)
    (backend : Option BackendArg) (route : Option String)
    (methods : List String) : Except Err Unit × World :=
  match _get_controller w with
  | .error e => (.error e, w)
  | .ok cname =>
      match backend with
      | none => (.error (.typeError backendNoneMsg), w)
      | some .nonString => (.error (.typeError backendTypeMsg), w)
      | some (.str b) =>
          if route.isSome && !(startsWithSlash (route.getD "")) then
            (.error (.typeError routeTypeMsg), w)
          else
            let w₁ : World := { w with log := w.log ++ ["get_all_endpoints"] }
            match w.actors.lookup cname with
            | none => (.error (.rayServeException deadActorMsg), w₁)
            | some cs =>
                let endpoints := ctrl_get_all_endpoints cs
                let conflict : Bool :=
                  match endpoints.lookup endpoint_name with
                  | some info => sortRetEq info.methods methods && info.route == route
                  | none => false
                if conflict then
                  (.error (.valueError (endpointConflictMsg route endpoint_name)), w₁)
                else
                  let methods₁ :=
                    if (endpoints.lookup endpoint_name).isSome then
                      methods.insertionSort (fun a b => a ≤ b)
                    else methods
                  let upper_methods := methods₁.map pyUpper
                  let cs' := ctrl_create_endpoint cs endpoint_name [(b, 1)] route upper_methods
                  (.ok (), { w₁ with actors := dictSet cname cs' w₁.actors
                                     log := w₁.log ++ ["create_endpoint"] })

/-- `delete_endpoint` from `api.py`: forwards to the controller. -/
def delete_endpoint (w : World) (endpoint : String) : Except Err Unit × World :=
  controllerCall w "delete_endpoint" (fun cs =>
    (ctrl_delete_endpoint cs endpoint).map (fun cs' => ((), cs')))

/-- `list_endpoints` from `api.py`: forwards to the controller's
`get_all_endpoints`. -/
def list_endpoints (w : World) :
    Except Err (List (String × EndpointInfo)) × World :=
  controllerCall w "get_all_endpoints" (fun cs =>
    .ok (ctrl_get_all_endpoints cs, cs))

/-- `update_backend_config` from `api.py`: the isinstance check on
`config_options` is always satisfied in the typed model; forwards to the
controller. -/
def update_backend_config (w : World) (backend_tag : String)
    (config_options : ConfigOptions) : Except Err Unit × World :=
  controllerCall w "update_backend_config" (fun cs =>
    (ctrl_update_backend_config cs backend_tag config_options).map
      (fun cs' => ((), cs')))

/-- `get_backend_config` from `api.py`: forwards to the controller. -/
def get_backend_config (w : World) (backend_tag : String) :
    Except Err BackendConfig × World :=
  controllerCall w "get_backend_config" (fun cs =>
    (ctrl_get_backend_config cs backend_tag).map (fun c => (c, cs)))

/-- Message of the duplicate-tag `ValueError` in `create_backend`. -/
def createBackendConflictMsg (backend_tag : String) : String :=
  "Cannot create backend. Backend '" ++ backend_tag ++ "' is already registered."

/-- `create_backend` from `api.py`: checks `backend_tag in list_backends()`
(one controller RPC) and raises `ValueError` on a duplicate tag before any
mutating RPC is made; otherwise the replica config and validated backend
config are built (replica construction is outside the control-plane model;
we take the final validated `BackendConfig` as the argument) and the
controller commits the new backend. -/
def create_backend (w : World) (backend_tag : String) (config : BackendConfig) :
    Except Err Unit × World :=
  match _get_controller w with
  | .error e => (.error e, w)
  | .ok cname =>
      let w₁ : World := { w with log := w.log ++ ["get_all_backends"] }
      match w.actors.lookup cname with
      | none => (.error (.rayServeException deadActorMsg), w₁)
      | some cs =>
          if (cs.backends.lookup backend_tag).isSome then
            (.error (.valueError (createBackendConflictMsg backend_tag)), w₁)
          else
            let cs' := ctrl_create_backend cs backend_tag config
            (.ok (), { w₁ with actors := dictSet cname cs' w₁.actors
                               log := w₁.log ++ ["create_backend"] })

/-- `list_backends` from `api.py`: forwards to the controller's
`get_all_backends`. -/
def list_backends (w : World) :
    Except Err (List (String × BackendConfig)) × World :=
  controllerCall w "get_all_backends" (fun cs =>
    .ok (ctrl_get_all_backends cs, cs))

/-- `delete_backend` from `api.py`: forwards to the controller. -/
def delete_backend (w : World) (backend_tag : String) : Except Err Unit × World :=
  controllerCall w "delete_backend" (fun cs =>
    (ctrl_delete_backend cs backend_tag).map (fun cs' => ((), cs')))

/-- `set_traffic` from `api.py`: forwards the traffic dict to the
controller. -/
def set_traffic (w : World) (endpoint_name : String)
    (traffic_policy_dictionary : List (String × ℚ)) : Except Err Unit × World :=
  controllerCall w "set_traffic" (fun cs =>
    (ctrl_set_traffic cs endpoint_name traffic_policy_dictionary).map
      (fun cs' => ((), cs')))

/-- `shadow_traffic` from `api.py`: checks `0 <= proportion <= 1` (raising
`TypeError` otherwise) before the controller RPC. -/
def shadow_traffic (w : World) (endpoint_name : String) (backend_tag : String)
    (proportion : ℚ) : Except Err Unit × World :=
  match _get_controller w with
  | .error e => (.error e, w)
  | .ok _ =>
      if 0 ≤ proportion ∧ proportion ≤ 1 then
        controllerCall w "shadow_traffic" (fun cs =>
          (ctrl_shadow_traffic cs endpoint_name backend_tag proportion).map
            (fun cs' => ((), cs')))
      else
        (.error (.typeError "proportion must be a float from 0 to 1."), w)

/-- The client-side handle returned by `get_handle`
(`ray/serve/handle.py`, outside the control-plane model): a router handle
plus the endpoint name it is bound to. -/
structure RayServeHandle where
  router : String
  endpoint_name : String
deriving DecidableEq

/-- `get_handle` from `api.py`: unless `missing_ok` is set, asserts that
the endpoint is registered (fetching `get_all_endpoints` from the
controller); then fetches the routers and binds the handle to the first
router and the endpoint name (`list(routers.values())[0]` raises
`IndexError` when there is no router). -/
def get_handle (w : World) (endpoint_name : String) (missing_ok : Bool) :
    Except Err RayServeHandle × World :=
  match _get_controller w with
  | .error e => (.error e, w)
  | .ok cname =>
      let w₁ : World :=
        { w with log := w.log ++
            (if missing_ok then ["get_routers"] else ["get_all_endpoints"]) }
      match w.actors.lookup cname with
      | none => (.error (.rayServeException deadActorMsg), w₁)
      | some cs =>
          if !missing_ok && ((ctrl_get_all_endpoints cs).lookup endpoint_name).isNone then
            (.error .assertionError, w₁)
          else
            let w₂ : World :=
              if missing_ok then w₁
              else { w₁ with log := w₁.log ++ ["get_routers"] }
            match (ctrl_get_routers cs).map Prod.snd with
            | [] => (.error .indexError, w₂)
            | r :: _ => (.ok ⟨r, endpoint_name⟩, w₂)

/-- The possible results of an administrative call, used to give the
calls of the administrative surface (spec §6) one common run function. -/
inductive Output where
  | unit
  | endpointsOut (l : List (String × EndpointInfo))
  | backendsOut (l : List (String × BackendConfig))
  | configOut (c : BackendConfig)
  | handleOut (h : RayServeHandle)
deriving DecidableEq

/-- One administrative call of the surface of spec §6, with its arguments
(everything except `init`, which is the re-initialization call itself). -/
inductive AdminCall where
  | shutdownCall
  | createEndpointCall (endpoint_name : String) (backend : Option BackendArg)
      (route : Option String) (methods : List String)
  | deleteEndpointCall (endpoint : String)
  | listEndpointsCall
  | updateBackendConfigCall (backend_tag : String) (config_options : ConfigOptions)
  | getBackendConfigCall (backend_tag : String)
  | createBackendCall (backend_tag : String) (config : BackendConfig)
  | listBackendsCall
  | deleteBackendCall (backend_tag : String)
  | setTrafficCall (endpoint_name : String)
      (traffic_policy_dictionary : List (String × ℚ))
  | shadowTrafficCall (endpoint_name : String) (backend_tag : String)
      (proportion : ℚ)
  | getHandleCall (endpoint_name : String) (missing_ok : Bool)
deriving DecidableEq

/-- Dispatch one administrative call against the world. -/
def runAdmin (c : AdminCall) (w : World) : Except Err Output × World :=
  match c with
  | .shutdownCall =>
      let r := shutdown w; (r.1.map (fun _ => .unit), r.2)
  | .createEndpointCall n b rt m =>
      let r := create_endpoint w n b rt m; (r.1.map (fun _ => .unit), r.2)
  | .deleteEndpointCall e =>
      let r := delete_endpoint w e; (r.1.map (fun _ => .unit), r.2)
  | .listEndpointsCall =>
      let r := list_endpoints w; (r.1.map .endpointsOut, r.2)
  | .updateBackendConfigCall t o =>
      let r := update_backend_config w t o; (r.1.map (fun _ => .unit), r.2)
  | .getBackendConfigCall t =>
      let r := get_backend_config w t; (r.1.map .configOut, r.2)
  | .createBackendCall t cfg =>
      let r := create_backend w t cfg; (r.1.map (fun _ => .unit), r.2)
  | .listBackendsCall =>
      let r := list_backends w; (r.1.map .backendsOut, r.2)
  | .deleteBackendCall t =>
      let r := delete_backend w t; (r.1.map (fun _ => .unit), r.2)
  | .setTrafficCall e tp =>
      let r := set_traffic w e tp; (r.1.map (fun _ => .unit), r.2)
  | .shadowTrafficCall e t p =>
      let r := shadow_traffic w e t p; (r.1.map (fun _ => .unit), r.2)
  | .getHandleCall e mo =>
      let r := get_handle w e mo; (r.1.map .handleOut, r.2)

/-! ## Concrete fixtures used by the witnesses and counterexamples -/

/-- A concrete backend config. -/
def exampleConfig : BackendConfig :=
  { num_replicas := 1, max_batch_size := none,
    batch_wait_timeout := 0, max_concurrent_queries := 8 }

/-- A concrete controller state: one endpoint `ep` at route `/a` with
methods `[GET]` and all traffic on backend `b`, one backend `b`, one
router. -/
def exampleController : ControllerState :=
  { endpoints := [("ep", { route := some "/a", methods := ["GET"],
                           traffic := { weights := [("b", 1)], shadow := [] } })]
    backends := [("b", exampleConfig)]
    routers := [("node-0", "router:node-0")] }

/-- A concrete connected world holding `exampleController` under the
default controller name. -/
def exampleWorld : World :=
  { actors := [(SERVE_CONTROLLER_NAME, exampleController)]
    controller := some SERVE_CONTROLLER_NAME
    log := [] }

/-- The world after a successful `shutdown` of `exampleWorld`. -/
def exampleShutWorld : World :=
  { actors := [], controller := none, log := ["shutdown", "ray.kill"] }

/-! ## Claim theorems -/

/-- C1: the claim says a second `create_endpoint` under an existing name
raises the duplicate conflict only for an identical `(route, methods)`
pair.  The code disagrees: because `list.sort()` returns `None`, the
methods comparison in the conflict check is always `True`, so the conflict
fires whenever the route alone matches.  Concretely: `ep` is registered
with route `/a` and methods `[GET]`, yet re-creating `ep` with the same
route and the different methods `[POST]` still raises the duplicate
`ValueError` — the registered and supplied method lists differ, and the
collapsed comparison `sortRetEq` is `true` on them regardless. -/
theorem C1_conflict_ignores_methods :
    (create_endpoint exampleWorld "ep" (some (.str "b2")) (some "/a") ["POST"]).1 =
      .error (.valueError (endpointConflictMsg (some "/a") "ep")) ∧
    exampleController.endpoints.lookup "ep" =
      some { route := some "/a", methods := ["GET"],
             traffic := { weights := [("b", 1)], shadow := [] } } ∧
    (["POST"] : List String) ≠ ["GET"] ∧
    sortRetEq ["GET"] ["POST"] = true := by
  exact ⟨rfl, rfl, by decide, rfl⟩

/-- C3: creating a backend whose tag is already registered fails with the
duplicate-tag `ValueError` (raised by the client wrapper before any
mutating controller call), and the backend and endpoint registries of
every controller actor are exactly what they were before the call. -/
theorem C3_create_backend_conflict (w : World) (cname : String)
    (cs : ControllerState) (backend_tag : String) (config : BackendConfig)
    (hc : w.controller = some cname) (ha : w.actors.lookup cname = some cs)
    (hmem : (cs.backends.lookup backend_tag).isSome) :
    (create_backend w backend_tag config).1 =
      .error (.valueError (createBackendConflictMsg backend_tag)) ∧
    (create_backend w backend_tag config).2.actors = w.actors ∧
    (create_backend w backend_tag config).2.controller = w.controller := by
  refine ⟨?_, ?_, ?_⟩ <;>
    simp [create_backend, _get_controller, hc, ha, hmem]

/-- Witness for C3: on the concrete world, re-creating backend `b` fails
with the conflict error and leaves the registries untouched. -/
theorem C3_witness :
    (create_backend exampleWorld "b" exampleConfig).1 =
      .error (.valueError (createBackendConflictMsg "b")) ∧
    (create_backend exampleWorld "b" exampleConfig).2.actors = exampleWorld.actors ∧
    (create_backend exampleWorld "b" exampleConfig).2.controller = exampleWorld.controller :=
  C3_create_backend_conflict exampleWorld SERVE_CONTROLLER_NAME exampleController
    "b" exampleConfig rfl rfl (by rfl)

/-- C6: a `create_endpoint` call whose route does not start with `/` fails
with a `TypeError` (the code's realization of the spec's `ValidationError`)
and changes nothing: the world — registries, handle and call log — is
returned exactly as it was, so no endpoint is created.  When the `backend`
argument is itself well-formed the error is precisely the route message. -/
theorem C6_route_validation (w : World) (cname : String)
    (hc : w.controller = some cname) (endpoint_name : String)
    (backend : Option BackendArg) (r : String)
    (hr : startsWithSlash r = false) (methods : List String) :
    (∃ msg, create_endpoint w endpoint_name backend (some r) methods =
      (.error (.typeError msg), w)) ∧
    (∀ b, backend = some (.str b) →
      create_endpoint w endpoint_name backend (some r) methods =
        (.error (.typeError routeTypeMsg), w)) := by
  constructor
  · cases backend with
    | none => exact ⟨backendNoneMsg, by simp [create_endpoint, _get_controller, hc]⟩
    | some a =>
      cases a with
      | nonString => exact ⟨backendTypeMsg, by simp [create_endpoint, _get_controller, hc]⟩
      | str b => exact ⟨routeTypeMsg, by simp [create_endpoint, _get_controller, hc, hr]⟩
  · rintro b rfl
    simp [create_endpoint, _get_controller, hc, hr]

/-- Witness for C6: route `"a"` does not start with `/`, and the call on
the concrete world fails with the route `TypeError`, world unchanged. -/
theorem C6_witness :
    (∃ msg, create_endpoint exampleWorld "ep2" (some (.str "b")) (some "a") ["GET"] =
      (.error (.typeError msg), exampleWorld)) ∧
    (∀ b, (some (BackendArg.str "b") : Option BackendArg) = some (.str b) →
      create_endpoint exampleWorld "ep2" (some (.str "b")) (some "a") ["GET"] =
        (.error (.typeError routeTypeMsg), exampleWorld)) :=
  C6_route_validation exampleWorld SERVE_CONTROLLER_NAME rfl "ep2"
    (some (.str "b")) "a" (by rfl) ["GET"]

/-- C10: a `create_endpoint` call whose `backend` argument is omitted
(`None`) or is not a string fails with a `TypeError`, and the world —
including the log of calls sent to the controller — is returned exactly as
it was: the failure happens before any RPC reaches the controller, so no
endpoint, policy or backend state is mutated. -/
theorem C10_backend_type_check (w : World) (cname : String)
    (hc : w.controller = some cname) (endpoint_name : String)
    (route : Option String) (methods : List String) :
    create_endpoint w endpoint_name none route methods =
      (.error (.typeError backendNoneMsg), w) ∧
    create_endpoint w endpoint_name (some .nonString) route methods =
      (.error (.typeError backendTypeMsg), w) := by
  constructor <;> simp [create_endpoint, _get_controller, hc]

/-- Witness for C10: on the concrete world, omitting `backend` or passing a
non-string fails with the respective `TypeError` and leaves the world
untouched. -/
theorem C10_witness :
    create_endpoint exampleWorld "ep2" none (some "/c") ["GET"] =
      (.error (.typeError backendNoneMsg), exampleWorld) ∧
    create_endpoint exampleWorld "ep2" (some .nonString) (some "/c") ["GET"] =
      (.error (.typeError backendTypeMsg), exampleWorld) :=
  C10_backend_type_check exampleWorld SERVE_CONTROLLER_NAME rfl "ep2"
    (some "/c") ["GET"]

theorem ctrl_get_all_endpoints_lookup (cs : ControllerState) (e : String) :
    (ctrl_get_all_endpoints cs).lookup e =
      (cs.endpoints.lookup e).map
        (fun ep => ⟨ep.route, ep.methods, ep.traffic.weights⟩) := by
  unfold ctrl_get_all_endpoints
  exact lookup_map_value
    (fun _ ep => ({ route := ep.route, methods := ep.methods,
                    traffic := ep.traffic.weights } : EndpointInfo))
    cs.endpoints e

/-- C8: initialization is idempotent on the controller identity.  If a
controller actor of the name derived from `name` already exists, `init`
reconnects to it: it returns successfully having only set the module-global
handle; the set of actors is unchanged (no duplicate controller is
created) and the external-call log is unchanged (no actor creation and no
HTTP readiness probing — startup is not re-run). -/
theorem C8_init_idempotent (w : World) (name : Option String)
    (h : (w.actors.lookup (format_actor_name SERVE_CONTROLLER_NAME name)).isSome) :
    init w name =
      (.ok (), { w with
        controller := some (format_actor_name SERVE_CONTROLLER_NAME name) }) := by
  obtain ⟨cs, hl⟩ := Option.isSome_iff_exists.mp h
  simp [init, hl]

/-- Witness for C8: re-running `init` against the concrete world, whose
controller actor already exists, reconnects without creating anything. -/
theorem C8_witness :
    init exampleWorld none =
      (.ok (), { exampleWorld with
        controller := some (format_actor_name SERVE_CONTROLLER_NAME none) }) :=
  C8_init_idempotent exampleWorld none (by rfl)

/-- C9: for an endpoint name absent from the endpoint registry,
`get_handle` with `missing_ok = false` fails (the code realizes the
failure as the `assert`'s `AssertionError`), while with
`missing_ok = true` it does not fail for that reason, and whenever it
returns a handle, that handle is bound to the requested endpoint name. -/
theorem C9_get_handle_missing (w : World) (cname : String)
    (cs : ControllerState) (e : String)
    (hc : w.controller = some cname) (ha : w.actors.lookup cname = some cs)
    (habs : cs.endpoints.lookup e = none) :
    (get_handle w e false).1 = .error .assertionError ∧
    (get_handle w e true).1 ≠ .error .assertionError ∧
    (∀ hndl w', get_handle w e true = (.ok hndl, w') →
      hndl.endpoint_name = e) := by
  refine ⟨?_, ?_, ?_⟩
  · simp [get_handle, _get_controller, hc, ha, ctrl_get_all_endpoints_lookup, habs]
  · simp only [get_handle, _get_controller, hc, ha]
    cases hr : (ctrl_get_routers cs).map Prod.snd with
    | nil => simp [hr]
    | cons r rest => simp [hr]
  · intro hndl w' hrun
    simp only [get_handle, _get_controller, hc, ha] at hrun
    cases hr : (ctrl_get_routers cs).map Prod.snd with
    | nil => rw [hr] at hrun; simp at hrun
    | cons r rest =>
        rw [hr] at hrun
        simp at hrun
        rw [← hrun.1]

/-- Witness for C9: `nope` is not registered in the concrete world;
`get_handle` without `missing_ok` fails on the assert, and with
`missing_ok` it yields a handle bound to `nope`. -/
theorem C9_witness :
    (get_handle exampleWorld "nope" false).1 = .error .assertionError ∧
    (get_handle exampleWorld "nope" true).1 ≠ .error .assertionError ∧
    (∀ hndl w', get_handle exampleWorld "nope" true = (.ok hndl, w') →
      hndl.endpoint_name = "nope") :=
  C9_get_handle_missing exampleWorld SERVE_CONTROLLER_NAME exampleController
    "nope" rfl rfl rfl

/-- C5: after a successful `shutdown`, the module-global controller handle
is cleared, so every further administrative call of the surface fails with
the `RayServeException` that tells the caller to run `serve.init` first
(the code's realization of the spec's not-found/uninitialized-controller
error), leaving the world unchanged; and after re-initializing, calls
succeed again (`list_endpoints` returns a snapshot). -/
theorem C5_shutdown_disconnects (w w' : World)
    (hsd : shutdown w = (.ok (), w')) :
    (∀ c : AdminCall,
      runAdmin c w' = (.error (.rayServeException connectErrMsg), w')) ∧
    (∀ name : Option String,
      ∃ l, (list_endpoints (init w' name).2).1 = .ok l) := by
  have hnone : w'.controller = none := by
    unfold shutdown _get_controller at hsd
    cases hw : w.controller with
    | none => rw [hw] at hsd; simp at hsd
    | some cname =>
        rw [hw] at hsd
        simp only at hsd
        cases hl : w.actors.lookup cname with
        | none => rw [hl] at hsd; simp at hsd
        | some cs =>
            rw [hl] at hsd
            simp only [Prod.mk.injEq] at hsd
            rw [← hsd.2]
  constructor
  · intro c
    cases c <;>
      simp [runAdmin, shutdown, create_endpoint, delete_endpoint,
        list_endpoints, update_backend_config, get_backend_config,
        create_backend, list_backends, delete_backend, set_traffic,
        shadow_traffic, get_handle, controllerCall, _get_controller,
        hnone, Except.map]
  · intro name
    cases hl : w'.actors.lookup (format_actor_name SERVE_CONTROLLER_NAME name) with
    | some cs =>
        exact ⟨ctrl_get_all_endpoints cs,
          by simp [init, hl, list_endpoints, controllerCall, _get_controller]⟩
    | none =>
        exact ⟨ctrl_get_all_endpoints freshController,
          by simp [init, hl, list_endpoints, controllerCall, _get_controller,
            lookup_dictSet_self]⟩

/-- Witness for C5: shutting down the concrete world leaves the concrete
terminated world, on which every administrative call fails with the
reconnect error and a re-`init` makes `list_endpoints` succeed again. -/
theorem C5_witness :
    (∀ c : AdminCall, runAdmin c exampleShutWorld =
      (.error (.rayServeException connectErrMsg), exampleShutWorld)) ∧
    (∀ name : Option String,
      ∃ l, (list_endpoints (init exampleShutWorld name).2).1 = .ok l) :=
  C5_shutdown_disconnects exampleWorld exampleShutWorld (by rfl)

/-- C2: (i) every accepted `set_traffic(e, w)` has weights summing to 1.0
within the tolerance, and a subsequent `list_endpoints()` maps `e` to an
entry whose traffic is exactly `w`, with the endpoint's route, methods and
shadow policy untouched (only `weights` is replaced); (ii) a weight set not
summing to 1.0 (±ε) fails with `ValidationError`; (iii) a weight set
referencing an unregistered backend fails with `ValidationError`. -/
theorem C2_set_traffic_weights (w : World) (cname : String)
    (cs : ControllerState) (e : String) (wts : List (String × ℚ))
    (hc : w.controller = some cname) (ha : w.actors.lookup cname = some cs) :
    (∀ w', set_traffic w e wts = (.ok (), w') →
      |weightsSum wts - 1| ≤ trafficEpsilon ∧
      ∃ l info, (list_endpoints w').1 = .ok l ∧
        l.lookup e = some info ∧ info.traffic = wts ∧
        (∀ ep, cs.endpoints.lookup e = some ep →
          info.route = ep.route ∧ info.methods = ep.methods ∧
          ∃ cs' ep', w'.actors.lookup cname = some cs' ∧
            cs'.endpoints.lookup e = some ep' ∧
            ep'.traffic.weights = wts ∧
            ep'.traffic.shadow = ep.traffic.shadow)) ∧
    (¬ |weightsSum wts - 1| ≤ trafficEpsilon →
      ∃ msg, (set_traffic w e wts).1 = .error (.validationError msg)) ∧
    ((∃ p ∈ wts, (cs.backends.lookup p.1).isNone) →
      ∃ msg, (set_traffic w e wts).1 = .error (.validationError msg)) := by
  refine ⟨?_, ?_, ?_⟩
  · intro w' hrun
    simp only [set_traffic, controllerCall, _get_controller, hc, ha,
      ctrl_set_traffic, Except.map] at hrun
    cases hlk : cs.endpoints.lookup e with
    | none => rw [hlk] at hrun; simp at hrun
    | some ep =>
        rw [hlk] at hrun
        by_cases hany : (wts.any (fun p => (cs.backends.lookup p.1).isNone)) = true
        · simp only [hany, if_true] at hrun
          simp at hrun
        · simp only [Bool.not_eq_true] at hany
          simp only [hany, Bool.false_eq_true, if_false] at hrun
          by_cases hsum : |weightsSum wts - 1| ≤ trafficEpsilon
          · rw [if_pos hsum] at hrun
            simp only [Prod.mk.injEq, true_and] at hrun
            subst hrun
            refine ⟨hsum,
              ctrl_get_all_endpoints
                { endpoints := dictSet e
                    { route := ep.route, methods := ep.methods,
                      traffic := { weights := wts, shadow := ep.traffic.shadow } }
                    cs.endpoints,
                  backends := cs.backends, routers := cs.routers },
              { route := ep.route, methods := ep.methods, traffic := wts },
              ?_, ?_, rfl, ?_⟩
            · simp [list_endpoints, controllerCall, _get_controller, hc,
                lookup_dictSet_self]
            · rw [ctrl_get_all_endpoints_lookup]
              rw [lookup_dictSet_self]
              rfl
            · intro ep₀ hep₀
              cases hep₀
              exact ⟨rfl, rfl, _, _, lookup_dictSet_self _ _ _,
                lookup_dictSet_self _ _ _, rfl, rfl⟩
          · rw [if_neg hsum] at hrun
            simp at hrun
  · intro hsum
    simp only [set_traffic, controllerCall, _get_controller, hc, ha,
      ctrl_set_traffic, Except.map]
    cases hlk : cs.endpoints.lookup e with
    | none => exact ⟨_, rfl⟩
    | some ep =>
        by_cases hany : (wts.any (fun p => (cs.backends.lookup p.1).isNone)) = true
        · simp only [hany, if_true]
          exact ⟨_, rfl⟩
        · simp only [Bool.not_eq_true] at hany
          simp only [hany, Bool.false_eq_true, if_false]
          rw [if_neg hsum]
          exact ⟨_, rfl⟩
  · intro hbad
    simp only [set_traffic, controllerCall, _get_controller, hc, ha,
      ctrl_set_traffic, Except.map]
    cases hlk : cs.endpoints.lookup e with
    | none => exact ⟨_, rfl⟩
    | some ep =>
        have hany : (wts.any (fun p => (cs.backends.lookup p.1).isNone)) = true := by
          obtain ⟨p, hp, hnone⟩ := hbad
          exact List.any_eq_true.mpr ⟨p, hp, hnone⟩
        simp only [hany, if_true]
        exact ⟨_, rfl⟩

/-- Witness for C2: instantiated on the concrete world at endpoint `ep`
with the weight set `{b: 1.0}`. -/
theorem C2_witness :
    (∀ w', set_traffic exampleWorld "ep" [("b", 1)] = (.ok (), w') →
      |weightsSum [("b", 1)] - 1| ≤ trafficEpsilon ∧
      ∃ l info, (list_endpoints w').1 = .ok l ∧
        l.lookup "ep" = some info ∧ info.traffic = [("b", 1)] ∧
        (∀ ep, exampleController.endpoints.lookup "ep" = some ep →
          info.route = ep.route ∧ info.methods = ep.methods ∧
          ∃ cs' ep', w'.actors.lookup SERVE_CONTROLLER_NAME = some cs' ∧
            cs'.endpoints.lookup "ep" = some ep' ∧
            ep'.traffic.weights = [("b", 1)] ∧
            ep'.traffic.shadow = ep.traffic.shadow)) ∧
    (¬ |weightsSum [("b", 1)] - 1| ≤ trafficEpsilon →
      ∃ msg, (set_traffic exampleWorld "ep" [("b", 1)]).1 =
        .error (.validationError msg)) ∧
    ((∃ p ∈ ([("b", (1:ℚ))]),
        (exampleController.backends.lookup p.1).isNone) →
      ∃ msg, (set_traffic exampleWorld "ep" [("b", 1)]).1 =
        .error (.validationError msg)) :=
  C2_set_traffic_weights exampleWorld SERVE_CONTROLLER_NAME exampleController
    "ep" [("b", 1)] rfl rfl

/-- C4: a successful `update_backend_config` replaces the stored config of
the tag by the merge of the old config with the supplied options: every
field supplied in the options takes its supplied value and every field not
supplied keeps its prior value; other backends and the endpoint registry
are untouched. -/
theorem C4_update_config_frame (w : World) (cname : String)
    (cs : ControllerState) (backend_tag : String) (opts : ConfigOptions)
    (c : BackendConfig) (w' : World)
    (hc : w.controller = some cname) (ha : w.actors.lookup cname = some cs)
    (hold : cs.backends.lookup backend_tag = some c)
    (hrun : update_backend_config w backend_tag opts = (.ok (), w')) :
    ∃ cs' c', w'.actors.lookup cname = some cs' ∧
      cs'.backends.lookup backend_tag = some c' ∧
      c'.num_replicas = opts.num_replicas.getD c.num_replicas ∧
      c'.max_batch_size = opts.max_batch_size.getD c.max_batch_size ∧
      c'.batch_wait_timeout = opts.batch_wait_timeout.getD c.batch_wait_timeout ∧
      c'.max_concurrent_queries =
        opts.max_concurrent_queries.getD c.max_concurrent_queries ∧
      (∀ t, t ≠ backend_tag → cs'.backends.lookup t = cs.backends.lookup t) ∧
      cs'.endpoints = cs.endpoints := by
  simp only [update_backend_config, controllerCall, _get_controller, hc, ha,
    ctrl_update_backend_config, hold, Except.map, Prod.mk.injEq, true_and] at hrun
  subst hrun
  exact ⟨_, mergeConfig c opts, lookup_dictSet_self _ _ _,
    lookup_dictSet_self _ _ _, rfl, rfl, rfl, rfl,
    fun t ht => lookup_dictSet_ne _ _ _ _ ht, rfl⟩

/-- The `config_options` dict `{max_batch_size: 10}` of the spec's example. -/
def exampleOpts : ConfigOptions :=
  { num_replicas := none, max_batch_size := some (some 10),
    batch_wait_timeout := none, max_concurrent_queries := none }

/-- The world after `update_backend_config("b", {max_batch_size: 10})` on
the concrete world. -/
def exampleWorldUpdated : World :=
  { actors := [(SERVE_CONTROLLER_NAME,
      { exampleController with
        backends := [("b", { exampleConfig with max_batch_size := some 10 })] })]
    controller := some SERVE_CONTROLLER_NAME
    log := ["update_backend_config"] }

/-- Witness for C4: updating only `max_batch_size` to 10 on the concrete
world leaves `num_replicas` and `batch_wait_timeout` (and
`max_concurrent_queries`) at their prior values. -/
theorem C4_witness :
    ∃ cs' c', exampleWorldUpdated.actors.lookup SERVE_CONTROLLER_NAME = some cs' ∧
      cs'.backends.lookup "b" = some c' ∧
      c'.num_replicas = exampleOpts.num_replicas.getD exampleConfig.num_replicas ∧
      c'.max_batch_size = exampleOpts.max_batch_size.getD exampleConfig.max_batch_size ∧
      c'.batch_wait_timeout =
        exampleOpts.batch_wait_timeout.getD exampleConfig.batch_wait_timeout ∧
      c'.max_concurrent_queries =
        exampleOpts.max_concurrent_queries.getD exampleConfig.max_concurrent_queries ∧
      (∀ t, t ≠ "b" →
        cs'.backends.lookup t = exampleController.backends.lookup t) ∧
      cs'.endpoints = exampleController.endpoints :=
  C4_update_config_frame exampleWorld SERVE_CONTROLLER_NAME exampleController
    "b" exampleOpts exampleConfig exampleWorldUpdated rfl rfl rfl (by rfl)

/-- C7: every successful `create_endpoint` call registers the endpoint in
one controller RPC whose stored record simultaneously carries the
uppercased methods (a permutation of `upper`-ing the supplied list; exactly
`map pyUpper methods` when the name is fresh — the in-place
`methods.sort()` of the conflict check reorders them when the name already
existed) and the single-backend traffic policy `{backend: 1.0}` with an
empty shadow: registration and policy installation are one atomic step. -/
theorem C7_create_endpoint_atomic (w : World) (cname : String)
    (cs : ControllerState) (endpoint_name b : String) (route : Option String)
    (methods : List String) (w' : World)
    (hc : w.controller = some cname) (ha : w.actors.lookup cname = some cs)
    (hrun : create_endpoint w endpoint_name (some (.str b)) route methods =
      (.ok (), w')) :
    ∃ cs' ep, w'.actors.lookup cname = some cs' ∧
      cs'.endpoints.lookup endpoint_name = some ep ∧
      ep.traffic.weights = [(b, 1)] ∧ ep.traffic.shadow = [] ∧
      ep.route = route ∧
      ep.methods.Perm (methods.map pyUpper) ∧
      (cs.endpoints.lookup endpoint_name = none →
        ep.methods = methods.map pyUpper) := by
  simp only [create_endpoint, _get_controller, hc, ha] at hrun
  split at hrun
  · simp at hrun
  · split at hrun
    · simp at hrun
    · simp only [Prod.mk.injEq, true_and] at hrun
      subst hrun
      refine ⟨_, _, lookup_dictSet_self _ _ _, lookup_dictSet_self _ _ _,
        rfl, rfl, rfl, ?_, ?_⟩
      · by_cases hp : (List.lookup endpoint_name (ctrl_get_all_endpoints cs)).isSome
        · simp only [hp, if_true]
          exact List.Perm.map pyUpper (List.perm_insertionSort _ methods)
        · simp only [Bool.not_eq_true] at hp
          simp [hp]
      · intro habs
        have hnone : List.lookup endpoint_name (ctrl_get_all_endpoints cs) = none := by
          rw [ctrl_get_all_endpoints_lookup, habs]; rfl
        simp [hnone]

/-- The world after a successful
`create_endpoint("ep2", backend="b", route="/b", methods=["get", "Post"])`
on the concrete world. -/
def exampleWorldCreated : World :=
  { actors := [(SERVE_CONTROLLER_NAME,
      { exampleController with
        endpoints := exampleController.endpoints ++
          [("ep2", { route := some "/b", methods := ["GET", "POST"],
                     traffic := { weights := [("b", 1)], shadow := [] } })] })]
    controller := some SERVE_CONTROLLER_NAME
    log := ["get_all_endpoints", "create_endpoint"] }

/-- Witness for C7: creating fresh endpoint `ep2` with methods
`["get", "Post"]` stores `["GET", "POST"]` and the policy `{b: 1.0}`. -/
theorem C7_witness :
    ∃ cs' ep, exampleWorldCreated.actors.lookup SERVE_CONTROLLER_NAME = some cs' ∧
      cs'.endpoints.lookup "ep2" = some ep ∧
      ep.traffic.weights = [("b", 1)] ∧ ep.traffic.shadow = [] ∧
      ep.route = some "/b" ∧
      ep.methods.Perm (["get", "Post"].map pyUpper) ∧
      (exampleController.endpoints.lookup "ep2" = none →
        ep.methods = ["get", "Post"].map pyUpper) :=
  C7_create_endpoint_atomic exampleWorld SERVE_CONTROLLER_NAME
    exampleController "ep2" "b" (some "/b") ["get", "Post"]
    exampleWorldCreated rfl rfl (by rfl)

end RayServe
